import Mathlib

set_option maxHeartbeats 2000000

/-!
Verification model of the MeshBot inbound message gating and command
dispatch engine (meshbot.py).  The Python class attributes of `MeshBot`
become the `BotState` structure, incoming Meshtastic packets become the
`Packet` structure, outbound `interface.sendText` calls become `Send`
values collected in a list, and a Python exception escaping a handler is
recorded in an `Option PyErr` field.  External collaborator modules
(twin_cipher, whois database, secrets randomness), whose code is not part
of this repository's single source file, are supplied through an `Env`
record of functions.
-/

namespace Meshbot

/-- Boolean test that one character list is a prefix of another,
modelling the initial-segment comparison underlying Python's `in`. -/
def startsWithSeq : List Char → List Char → Bool
  | [], _ => true
  | _ :: _, [] => false
  | a :: as, b :: bs => a == b && startsWithSeq as bs

/-- Boolean substring containment on character lists. -/
def hasSubSeq (needle : List Char) : List Char → Bool
  | [] => needle.isEmpty
  | c :: rest => startsWithSeq needle (c :: rest) || hasSubSeq needle rest

/-- Python's `needle in hay` substring test on strings. -/
def strContains (hay needle : String) : Bool :=
  hasSubSeq needle.data hay.data

/-- Python's `str.lower()` (ASCII case folding, as used on the message text). -/
def strLower (s : String) : String :=
  ⟨s.data.map Char.toLower⟩

/-- Python's `str.split(sep)` for a one-character separator: split at every
occurrence of the separator, keeping empty fields (`"".split(" ") == [""]`). -/
def pySplitOnAux (sep : Char) : List Char → List Char → List String
  | [], acc => [⟨acc.reverse⟩]
  | d :: rest, acc =>
    if d == sep then ⟨acc.reverse⟩ :: pySplitOnAux sep rest []
    else pySplitOnAux sep rest (d :: acc)

/-- Python's `str.split(sep)` with a one-character separator. -/
def pySplitOn (s : String) (sep : Char) : List String :=
  pySplitOnAux sep s.data []

/-- Python's argument-less `str.split()`: split on whitespace runs and drop
empty fields (`"".split() == []`). -/
def pySplitWsAux : List Char → List Char → List String
  | [], [] => []
  | [], acc => [⟨acc.reverse⟩]
  | d :: rest, acc =>
    if d.isWhitespace then
      (if acc.isEmpty then pySplitWsAux rest [] else ⟨acc.reverse⟩ :: pySplitWsAux rest [])
    else pySplitWsAux rest (d :: acc)

/-- Python's argument-less `str.split()`. -/
def pySplitWs (s : String) : List String :=
  pySplitWsAux s.data []

/-- Python's `sep.join(parts)`. -/
def joinSep (sep : String) : List String → String
  | [] => ""
  | [x] => x
  | x :: xs => x ++ sep ++ joinSep sep xs

/-- Python's `str.strip()`: remove leading and trailing whitespace. -/
def pyStrip (s : String) : String :=
  ⟨((s.data.dropWhile Char.isWhitespace).reverse.dropWhile Char.isWhitespace).reverse⟩

/-- Lowercase hexadecimal digit string of a natural number, the digit part of
Python's `hex(n)`. -/
def hexStr (n : Nat) : String :=
  ⟨Nat.toDigits 16 n⟩

/-- Boolean hexadecimal-digit test. -/
def isHexDigitB (c : Char) : Bool :=
  c.isDigit || ('a' ≤ c && c ≤ 'f') || ('A' ≤ c && c ≤ 'F')

/-- Whether Python's `int(s, 16)` succeeds on `s`: after stripping
whitespace, an optional `0x`/`0X` prefix followed by a nonempty run of hex
digits (numeric sign forms are omitted; only the success of the parse is
used by the source, never the value). -/
def pyIntHexOk (s : String) : Bool :=
  let cs := (pyStrip s).data
  let cs := match cs with
    | '0' :: 'x' :: rest => rest
    | '0' :: 'X' :: rest => rest
    | other => other
  !cs.isEmpty && cs.all isHexDigitB

/-- A Python exception class escaping a handler. -/
inductive PyErr where
  | indexError
  | attributeError
  | typeError
deriving DecidableEq, Repr

/-- The mutable attributes of the `MeshBot` object: counters and flags
(`transmission_count`, `cooldown`, `kill_all_robots`), the operator policy
flags, the startup configuration from `settings.yaml`, the cached data
written by the refresh loop, and the BBS message store (the `self.bbs`
collaborator state: a list of (recipient address, text) pairs). -/
structure BotState where
  transmission_count : Int
  cooldown : Bool
  kill_all_robots : Nat
  dutycycle : Bool
  dm_mode : Bool
  firewall : Bool
  location : String
  tide_location : String
  mynode : String
  mynodes : List String
  db_filename : String
  weather_info : String
  tides_info : String
  bbsStore : List (String × String)
deriving DecidableEq, Repr

/-- An incoming Meshtastic text packet: numeric sender and destination node
ids, the decoded text, and the link-quality fields read by `#tst-detail`. -/
structure Packet where
  fromId : Nat
  toId : Nat
  text : String
  portnum : String
  hopStart : Option Int
  hopLimit : Int
  rxRssi : Int
  rxSnr : Int
deriving DecidableEq, Repr

/-- One outbound `interface.sendText` call: text, the `wantAck` flag, and
the destination (`none` models the broadcast default when `destinationId`
is not passed). -/
structure Send where
  text : String
  wantAck : Bool
  dest : Option Nat
deriving DecidableEq, Repr

/-- Result of one handler invocation: the updated bot state, the sends it
performed before returning or raising, and the exception that escaped it,
if any. -/
structure HOut where
  state : BotState
  sends : List Send
  err : Option PyErr
deriving DecidableEq, Repr

/-- Result of the dispatch block (and of one `message_listener` call):
state, sends, escaped exception, and which routing-table entry was invoked
(`invoked` records the index of the handler branch that ran, mirroring the
per-handler `logger.info("... Command Received")` line each handler
emits). -/
structure DispatchOut where
  state : BotState
  sends : List Send
  err : Option PyErr
  invoked : Option Nat
deriving DecidableEq, Repr

/-- A Python runtime value at the two dynamically-typed call sites
(`command_whois` and `command_help` receive the raw packet where their
signatures expect other arguments). -/
inductive PyVal where
  | strV (s : String)
  | packetV (p : Packet)
  | interfaceV
  | natV (n : Nat)
deriving DecidableEq, Repr

/-- External collaborators and the randomness drawn during one listener
call: the twin_cipher codec, the whois directory lookups (by hex id and by
short name), the `secrets.choice` coin for `#flipcoin`, and the
`secrets.randbelow(10)` draw for `#random`. -/
structure Env where
  twinEncode : String → String
  twinDecode : String → String
  whoisById : String → Option (String × String × String)
  whoisBySn : String → Option (String × String × String)
  coinHeads : Bool
  randBelow10 : Fin 10

/-- `command_fw` (meshbot.py lines 176-188): argument "off"
(case-insensitive) clears the firewall flag, any other argument or no
argument sets it. -/
def command_fw (st : BotState) (message : String) : BotState :=
  let message_parts := pySplitOn message ' '
  match message_parts.get? 1 with
  | some a1 =>
    if strLower a1 == "off" then { st with firewall := false }
    else { st with firewall := true }
  | none => { st with firewall := true }

/-- `command_dm` (lines 190-202): same law for the DM-only flag. -/
def command_dm (st : BotState) (message : String) : BotState :=
  let message_parts := pySplitOn message ' '
  match message_parts.get? 1 with
  | some a1 =>
    if strLower a1 == "off" then { st with dm_mode := false }
    else { st with dm_mode := true }
  | none => { st with dm_mode := true }

/-- `command_flipcoin` (lines 204-213): increment the transmission count and
send `secrets.choice(["Heads", "Tails"])` to the sender. -/
def command_flipcoin (env : Env) (st : BotState) (sender_id : Nat) :
    BotState × List Send :=
  ({ st with transmission_count := st.transmission_count + 1 },
   [{ text := if env.coinHeads then "Heads" else "Tails",
      wantAck := true, dest := some sender_id }])

/-- `command_random` (lines 215-223): increment the transmission count and
send `str(secrets.randbelow(10) + 1)` to the sender. -/
def command_random (env : Env) (st : BotState) (sender_id : Nat) :
    BotState × List Send :=
  ({ st with transmission_count := st.transmission_count + 1 },
   [{ text := toString ((env.randBelow10 : Nat) + 1),
      wantAck := true, dest := some sender_id }])

/-- `command_twin` (lines 225-241): split the message on spaces; when the
first argument token is exactly "d" send the decoded remainder, otherwise
send the encoded remainder.  A message with no argument token makes
`message_parts[1]` raise `IndexError`.  The handler never touches
`transmission_count`. -/
def command_twin (env : Env) (st : BotState) (message : String)
    (sender_id : Nat) : HOut :=
  let message_parts := pySplitOn message ' '
  let content := joinSep " " (message_parts.drop 2)
  match message_parts.get? 1 with
  | none => { state := st, sends := [], err := some .indexError }
  | some a1 =>
    if strLower a1 == "d" then
      { state := st,
        sends := [{ text := env.twinDecode content, wantAck := true,
                    dest := some sender_id }],
        err := none }
    else
      { state := st,
        sends := [{ text := env.twinEncode content, wantAck := true,
                    dest := some sender_id }],
        err := none }

/-- `command_tst_detail` (lines 243-253): increment the transmission count
and send the link-quality diagnostic reply built from the packet fields. -/
def command_tst_detail (st : BotState) (packet : Packet) (sender_id : Nat) :
    BotState × List Send :=
  let st := { st with transmission_count := st.transmission_count + 1 }
  let testreply := "🟢 ACK."
  let testreply :=
    match packet.hopStart with
    | some hs =>
      if hs - packet.hopLimit == 0 then testreply ++ "Received Directly at "
      else testreply ++ "Received from " ++ toString (hs - packet.hopLimit)
             ++ "hop(s) away at"
    | none => testreply
  let testreply := testreply ++ toString packet.rxRssi ++ "dB, SNR: "
    ++ toString packet.rxSnr ++ "dB (" ++ toString (packet.rxSnr + 10 * 5)
    ++ "%)"
  (st, [{ text := testreply, wantAck := true, dest := some sender_id }])

/-- Reply text for a whois directory row. -/
def whoisData (r : String × String × String) : String :=
  "ID:" ++ r.1 ++ "\n" ++ "Long Name: " ++ r.2.1 ++ "\n" ++ "Short Name: "
    ++ r.2.2

/-- Body of `command_whois` (lines 258-324) after the `message.split("#")`
step succeeded: increment the transmission count, and when the split has
more than one part look the query up first as a hex node id, then (unless
the id lookup already reported no match) by short name.  The logging
f-string on line 263 evaluates `message_parts[2]`, raising `IndexError`
when the split produced exactly two parts. -/
def command_whois_body (env : Env) (st : BotState) (message_parts : List String)
    (sender_id : Nat) : HOut :=
  let st := { st with transmission_count := st.transmission_count + 1 }
  if message_parts.length > 1 then
    match message_parts.get? 2 with
    | none => { state := st, sends := [], err := some .indexError }
    | some p2 =>
      let q := pyStrip p2
      let step1 : List Send × Bool :=
        if pyIntHexOk q then
          match env.whoisById q with
          | some r =>
            ([{ text := whoisData r, wantAck := false, dest := some sender_id }],
             false)
          | none =>
            ([{ text := "No matching record found.", wantAck := false,
                dest := some sender_id }],
             true)
        else ([], false)
      let lookup_complete := step1.2
      if lookup_complete == false then
        match env.whoisBySn q with
        | some r =>
          { state := st,
            sends := step1.1 ++ [{ text := whoisData r, wantAck := false,
                                   dest := some sender_id }],
            err := none }
        | none =>
          { state := st,
            sends := step1.1 ++ [{ text := "No matching record found.",
                                   wantAck := false, dest := some sender_id }],
            err := none }
      else
        { state := st,
          sends := step1.1 ++ [{ text := "No matching record found.",
                                 wantAck := false, dest := some sender_id }],
          err := none }
  else { state := st, sends := [], err := none }

/-- `command_whois` (lines 255-324).  Its first parameter is declared as the
message text, but the dispatcher passes the raw packet; the first statement
`message.split("#")` therefore raises `AttributeError` whenever the
argument is not a string, before the transmission count is touched. -/
def command_whois (env : Env) (st : BotState) (message : PyVal)
    (sender_id : Nat) : HOut :=
  match message with
  | .strV s => command_whois_body env st (pySplitOn s '#') sender_id
  | _ => { state := st, sends := [], err := some .attributeError }

/-- Number of stored BBS messages for an address (mailbox collaborator).
Modelled from the spec: `count(address) → integer` for the `modules.bbs`
store, which is not part of this source file. -/
def bbsCount (store : List (String × String)) (addy : String) : Nat :=
  (store.filter (fun um => um.1 == addy)).length

/-- Stored BBS messages for an address.  Modelled from the spec:
`get(address) → ordered sequence of (recipient, text)`. -/
def bbsGet (store : List (String × String)) (addy : String) :
    List (String × String) :=
  store.filter (fun um => um.1 == addy)

/-- Delete the stored BBS messages for an address.  Modelled from the spec:
`delete(address)`. -/
def bbsDelete (store : List (String × String)) (addy : String) :
    List (String × String) :=
  store.filter (fun um => um.1 != addy)

/-- Store a BBS message for a recipient.  Modelled from the spec:
`post(recipient, text)`. -/
def bbsPost (store : List (String × String)) (recipient content : String) :
    List (String × String) :=
  store ++ [(recipient, content)]

/-- `command_bbs` (lines 326-388): increment the transmission count, then
run the `any` / `get` / `post` subcommands (three independent `if`s in the
source).  A bare `#bbs` makes `message_parts[1]` raise `IndexError` after
the increment; a `post` with no recipient raises `IndexError` at the final
`post_message(message_parts[2], ...)` call. -/
def command_bbs (env : Env) (st : BotState) (packet : Packet)
    (sender_id : Nat) : HOut :=
  let message := strLower packet.text
  let st := { st with transmission_count := st.transmission_count + 1 }
  let message_parts := pySplitWs message
  let addy := "!" ++ hexStr packet.fromId
  match message_parts.get? 1 with
  | none => { state := st, sends := [], err := some .indexError }
  | some sub =>
    let anySends : List Send :=
      if strLower sub == "any" then
        let count := bbsCount st.bbsStore addy
        [{ text := "You have " ++ toString count ++ " messages.",
           wantAck := true, dest := some sender_id }]
      else []
    let getStep : BotState × List Send :=
      if strLower sub == "get" then
        let messages := bbsGet st.bbsStore addy
        if messages.isEmpty then
          (st, [{ text := "No new messages.", wantAck := false,
                  dest := some sender_id }])
        else
          ({ st with bbsStore := bbsDelete st.bbsStore addy },
           messages.map (fun um =>
             { text := um.2, wantAck := false, dest := some sender_id }))
      else (st, [])
    let st := getStep.1
    if strLower sub == "post" then
      let content := joinSep " " (message_parts.drop 3)
      let result := env.whoisById (hexStr packet.fromId)
      let short_name :=
        match result with
        | some r => r.2.2
        | none => "0x" ++ hexStr packet.fromId
      let content := content ++ ". From: " ++ short_name ++ "(" ++ "!"
        ++ hexStr packet.fromId ++ ")"
      match message_parts.get? 2 with
      | none => { state := st, sends := anySends ++ getStep.2,
                  err := some .indexError }
      | some recipient =>
        { state := { st with bbsStore := bbsPost st.bbsStore recipient content },
          sends := anySends ++ getStep.2, err := none }
    else { state := st, sends := anySends ++ getStep.2, err := none }

/-- Shutdown broadcast text of the kill-all-robots handler. -/
def killNotice : String :=
  "💣 Deactivating all reachable bots... SECRET_SHUTDOWN_STRING"

/-- `command_kill_all_robots` (lines 390-404): increment the transmission
count; when `kill_all_robots == 0` send "Confirm" to the sender and
increment the counter; when `kill_all_robots > 1` broadcast the shutdown
notice, increment the transmission count again, and reset the counter. -/
def command_kill_all_robots (st : BotState) (message : String)
    (sender_id : Nat) : BotState × List Send :=
  let st1 := { st with transmission_count := st.transmission_count + 1 }
  let step1 : BotState × List Send :=
    if st1.kill_all_robots == 0 then
      ({ st1 with kill_all_robots := st1.kill_all_robots + 1 },
       [{ text := "Confirm", wantAck := false, dest := some sender_id }])
    else (st1, [])
  let st2 := step1.1
  if st2.kill_all_robots > 1 then
    ({ st2 with transmission_count := st2.transmission_count + 1,
                kill_all_robots := 0 },
     step1.2 ++ [{ text := killNotice, wantAck := false, dest := none }])
  else (st2, step1.2)

/-- `command_help` (lines 406-413): increment the transmission count and
send the command list to the sender. -/
def command_help (st : BotState) (sender_id : Nat) : BotState × List Send :=
  ({ st with transmission_count := st.transmission_count + 1 },
   [{ text := "Available commands:\n #help\n #test\n #tst-detail\n #weather\n #tides\n #flipcoin\n #random\n",
      wantAck := false, dest := some sender_id }])

/-- Python call semantics at the `#help` dispatch site: `command_help`
declares two parameters besides `self` (`interface`, `sender_id`), so a
call with any other number of arguments raises `TypeError` before the body
runs.  The dispatcher (line 462) passes three arguments. -/
def pyCallHelp (args : List PyVal) (st : BotState) : HOut :=
  match args with
  | [_iface, senderArg] =>
    let sender_id := match senderArg with | .natV n => n | _ => 0
    let r := command_help st sender_id
    { state := r.1, sends := r.2, err := none }
  | _ => { state := st, sends := [], err := some .typeError }

/-- The inline `#weather` / `#tides` / `#test` dispatch branches (lines
444-452): increment the transmission count and send the given text to the
sender with `wantAck=True`. -/
def sendCounted (st : BotState) (text : String) (sender_id : Nat) :
    BotState × List Send :=
  ({ st with transmission_count := st.transmission_count + 1 },
   [{ text := text, wantAck := true, dest := some sender_id }])

/-- The Access Gate (lines 424-428): duty-cycle ceiling, DM-only
addressing, and firewall allow-list (loose substring containment of an
allow-list entry in `str(packet["from"])`). -/
def isEligible (st : BotState) (packet : Packet) : Bool :=
  (decide (st.transmission_count < 16) || st.dutycycle == false)
  && (st.dm_mode == false || toString packet.toId == st.mynode)
  && (st.firewall == false
      || st.mynodes.any (fun node => strContains (toString packet.fromId) node))

/-- The ordered keyword routing table of the dispatcher (lines 434-462). -/
def keywords : List String :=
  ["#fw", "#dm", "#flipcoin", "#random", "#twin", "#weather", "#tides",
   "#test", "#tst-detail", "#whois #", "#bbs", "#kill_all_robots", "#help"]

/-- Index of the first keyword of a list contained in the message text. -/
def firstMatchIdx (message : String) : List String → Option Nat
  | [] => none
  | k :: ks =>
    if strContains message k then some 0
    else (firstMatchIdx message ks).map (fun i => i + 1)

/-- Index of the first recognized keyword contained in the message text. -/
def firstKeyword (message : String) : Option Nat :=
  firstMatchIdx message keywords

/-- The command dispatch block of `message_listener` (lines 434-462): the
`if`/`elif` chain over substring keyword matches, invoking at most the
first matching handler.  The `#whois #` branch passes the raw packet as
the handler's `message` parameter and the `#help` branch passes three
arguments, exactly as the source does. -/
def dispatch (env : Env) (st : BotState) (packet : Packet) (message : String)
    (sender_id : Nat) : DispatchOut :=
  if strContains message "#fw" then
    { state := command_fw st message, sends := [], err := none, invoked := some 0 }
  else if strContains message "#dm" then
    { state := command_dm st message, sends := [], err := none, invoked := some 1 }
  else if strContains message "#flipcoin" then
    let r := command_flipcoin env st sender_id
    { state := r.1, sends := r.2, err := none, invoked := some 2 }
  else if strContains message "#random" then
    let r := command_random env st sender_id
    { state := r.1, sends := r.2, err := none, invoked := some 3 }
  else if strContains message "#twin" then
    let r := command_twin env st message sender_id
    { state := r.state, sends := r.sends, err := r.err, invoked := some 4 }
  else if strContains message "#weather" then
    let r := sendCounted st st.weather_info sender_id
    { state := r.1, sends := r.2, err := none, invoked := some 5 }
  else if strContains message "#tides" then
    let r := sendCounted st st.tides_info sender_id
    { state := r.1, sends := r.2, err := none, invoked := some 6 }
  else if strContains message "#test" then
    let r := sendCounted st "🟢 ACK" sender_id
    { state := r.1, sends := r.2, err := none, invoked := some 7 }
  else if strContains message "#tst-detail" then
    let r := command_tst_detail st packet sender_id
    { state := r.1, sends := r.2, err := none, invoked := some 8 }
  else if strContains message "#whois #" then
    let r := command_whois env st (PyVal.packetV packet) sender_id
    { state := r.state, sends := r.sends, err := r.err, invoked := some 9 }
  else if strContains message "#bbs" then
    let r := command_bbs env st packet sender_id
    { state := r.state, sends := r.sends, err := r.err, invoked := some 10 }
  else if strContains message "#kill_all_robots" then
    let r := command_kill_all_robots st message sender_id
    { state := r.1, sends := r.2, err := none, invoked := some 11 }
  else if strContains message "#help" then
    let r := pyCallHelp [PyVal.packetV packet, PyVal.interfaceV,
                         PyVal.natV sender_id] st
    { state := r.state, sends := r.sends, err := r.err, invoked := some 12 }
  else
    { state := st, sends := [], err := none, invoked := none }

/-- Specification-side routing table: the handler bound to each keyword
index, in the priority order of `keywords`. -/
def routeHandler (env : Env) (st : BotState) (packet : Packet)
    (message : String) (sender_id : Nat) : Nat → DispatchOut
  | 0 =>
    { state := command_fw st message, sends := [], err := none, invoked := some 0 }
  | 1 =>
    { state := command_dm st message, sends := [], err := none, invoked := some 1 }
  | 2 =>
    let r := command_flipcoin env st sender_id
    { state := r.1, sends := r.2, err := none, invoked := some 2 }
  | 3 =>
    let r := command_random env st sender_id
    { state := r.1, sends := r.2, err := none, invoked := some 3 }
  | 4 =>
    let r := command_twin env st message sender_id
    { state := r.state, sends := r.sends, err := r.err, invoked := some 4 }
  | 5 =>
    let r := sendCounted st st.weather_info sender_id
    { state := r.1, sends := r.2, err := none, invoked := some 5 }
  | 6 =>
    let r := sendCounted st st.tides_info sender_id
    { state := r.1, sends := r.2, err := none, invoked := some 6 }
  | 7 =>
    let r := sendCounted st "🟢 ACK" sender_id
    { state := r.1, sends := r.2, err := none, invoked := some 7 }
  | 8 =>
    let r := command_tst_detail st packet sender_id
    { state := r.1, sends := r.2, err := none, invoked := some 8 }
  | 9 =>
    let r := command_whois env st (PyVal.packetV packet) sender_id
    { state := r.state, sends := r.sends, err := r.err, invoked := some 9 }
  | 10 =>
    let r := command_bbs env st packet sender_id
    { state := r.state, sends := r.sends, err := r.err, invoked := some 10 }
  | 11 =>
    let r := command_kill_all_robots st message sender_id
    { state := r.1, sends := r.2, err := none, invoked := some 11 }
  | 12 =>
    let r := pyCallHelp [PyVal.packetV packet, PyVal.interfaceV,
                         PyVal.natV sender_id] st
    { state := r.state, sends := r.sends, err := r.err, invoked := some 12 }
  | _ =>
    { state := st, sends := [], err := none, invoked := none }

/-- Cooldown notice broadcast by the duty-cycle monitor. -/
def cooldownNotice : String :=
  "❌ Bot has reached duty cycle, entering cool down... ❄"

/-- The Duty-Cycle Monitor (lines 463-473): when the transmission count has
reached 11 with the duty cycle enabled and the cooldown flag not yet set,
broadcast the cooldown notice once and set the flag; while the flag is set
the crossing produces no further transmission. -/
def dutyCheck (st : BotState) : BotState × List Send :=
  if 11 ≤ st.transmission_count ∧ st.dutycycle = true then
    if st.cooldown = false then
      ({ st with cooldown := true },
       [{ text := cooldownNotice, wantAck := false, dest := none }])
    else (st, [])
  else (st, [])

/-- `message_listener` (lines 416-476): for a decoded text packet, run the
access gate, dispatch the lowercased text to at most one handler, and —
when no exception escaped the handler — run the duty-cycle check on the
resulting state.  An escaped exception propagates out of the listener,
skipping the duty-cycle check but keeping the state mutations and sends
already performed. -/
def message_listener (env : Env) (st : BotState) (packet : Packet) :
    DispatchOut :=
  if packet.portnum == "TEXT_MESSAGE_APP" then
    let message := strLower packet.text
    let sender_id := packet.fromId
    let d :=
      if isEligible st packet then dispatch env st packet message sender_id
      else { state := st, sends := [], err := none, invoked := none }
    match d.err with
    | some e => { state := d.state, sends := d.sends, err := some e,
                  invoked := d.invoked }
    | none =>
      let m := dutyCheck d.state
      { state := m.1, sends := d.sends ++ m.2, err := none, invoked := d.invoked }
  else { state := st, sends := [], err := none, invoked := none }

/-- The 180-unit action of `_background_resets` (lines 142-145):
`transmission_count = max(0, transmission_count - 1)`. -/
def decayTransmission (st : BotState) : BotState :=
  { st with transmission_count := max 0 (st.transmission_count - 1) }

/-- The 240-unit action of `_background_resets` (lines 147-150):
`cooldown = False`. -/
def decayCooldown (st : BotState) : BotState :=
  { st with cooldown := false }

/-- The 120-unit action of `_background_resets` (lines 152-155):
`kill_all_robots = 0`. -/
def decayKillAllRobots (st : BotState) : BotState :=
  { st with kill_all_robots := 0 }

/-- The bot state right after `__init__` and `load_setting`: counters zero,
flags clear, configuration loaded from the settings (`weather_info` and
`tides_info`, `None` until the first refresh, are modelled as the empty
string). -/
def initBotState (location tide_location mynode : String)
    (mynodes : List String) (db_filename : String)
    (dm_mode firewall dutycycle : Bool) : BotState :=
  { transmission_count := 0, cooldown := false, kill_all_robots := 0,
    dutycycle := dutycycle, dm_mode := dm_mode, firewall := firewall,
    location := location, tide_location := tide_location, mynode := mynode,
    mynodes := mynodes, db_filename := db_filename,
    weather_info := "", tides_info := "", bbsStore := [] }

/-- The sends the duty-cycle monitor itself performs during one listener
call (empty when the packet is not a text message or when the dispatched
handler raised, since the exception skips the check). -/
def monitorSends (env : Env) (st : BotState) (packet : Packet) : List Send :=
  if packet.portnum == "TEXT_MESSAGE_APP" then
    let message := strLower packet.text
    let sender_id := packet.fromId
    let d :=
      if isEligible st packet then dispatch env st packet message sender_id
      else { state := st, sends := [], err := none, invoked := none }
    match d.err with
    | some _ => []
    | none => (dutyCheck d.state).2
  else []

/-- Total number of duty-cycle notices the monitor emits while the listener
processes a sequence of packets. -/
def monitorNoticeCount (env : Env) : BotState → List Packet → Nat
  | _, [] => 0
  | st, p :: ps =>
    (monitorSends env st p).length
      + monitorNoticeCount env (message_listener env st p).state ps

/-- A concrete environment for concrete runs: an identity-style codec, an
empty whois directory, and fixed random draws. -/
def env0 : Env :=
  { twinEncode := fun s => s ++ s, twinDecode := fun s => s,
    whoisById := fun _ => none, whoisBySn := fun _ => none,
    coinHeads := true, randBelow10 := ⟨3, by decide⟩ }

/-- A concrete freshly-initialized bot state with all policy flags off. -/
def st0 : BotState :=
  initBotState "loc" "tloc" "!abc" ["111"] "db" false false false

/-- A concrete text packet with the given text. -/
def mkTextPkt (t : String) : Packet :=
  { fromId := 7, toId := 4294967295, text := t, portnum := "TEXT_MESSAGE_APP",
    hopStart := none, hopLimit := 0, rxRssi := -90, rxSnr := 5 }

/-- The ARMED kill-confirmation state: one confirmation already pending. -/
def stArmed : BotState := { st0 with kill_all_robots := 1 }

/-- A state with five recent transmissions. -/
def stTw : BotState := { st0 with transmission_count := 5 }

/-- A state at the duty-cycle notice threshold with the duty cycle on. -/
def stCross : BotState :=
  { st0 with transmission_count := 11, dutycycle := true }

/-- A state already in cooldown. -/
def stCool : BotState := { st0 with cooldown := true }

/-- A state with the kill counter (unreachably) above one. -/
def stKill2 : BotState := { st0 with kill_all_robots := 2 }

/-- A second kill command arriving from a different sender. -/
def pktKill8 : Packet := { mkTextPkt "#kill_all_robots" with fromId := 8 }

theorem dispatch_route (env : Env) (st : BotState) (packet : Packet)
    (message : String) (sender_id : Nat) :
    dispatch env st packet message sender_id =
      match firstKeyword message with
      | none => { state := st, sends := [], err := none, invoked := none }
      | some i => routeHandler env st packet message sender_id i := by
  unfold dispatch firstKeyword keywords
  simp only [firstMatchIdx]
  by_cases h1 : strContains message "#fw" = true
  · simp [h1, routeHandler]
  by_cases h2 : strContains message "#dm" = true
  · simp [h1, h2, routeHandler]
  by_cases h3 : strContains message "#flipcoin" = true
  · simp [h1, h2, h3, routeHandler]
  by_cases h4 : strContains message "#random" = true
  · simp [h1, h2, h3, h4, routeHandler]
  by_cases h5 : strContains message "#twin" = true
  · simp [h1, h2, h3, h4, h5, routeHandler]
  by_cases h6 : strContains message "#weather" = true
  · simp [h1, h2, h3, h4, h5, h6, routeHandler]
  by_cases h7 : strContains message "#tides" = true
  · simp [h1, h2, h3, h4, h5, h6, h7, routeHandler]
  by_cases h8 : strContains message "#test" = true
  · simp [h1, h2, h3, h4, h5, h6, h7, h8, routeHandler]
  by_cases h9 : strContains message "#tst-detail" = true
  · simp [h1, h2, h3, h4, h5, h6, h7, h8, h9, routeHandler]
  by_cases h10 : strContains message "#whois #" = true
  · simp [h1, h2, h3, h4, h5, h6, h7, h8, h9, h10, routeHandler]
  by_cases h11 : strContains message "#bbs" = true
  · simp [h1, h2, h3, h4, h5, h6, h7, h8, h9, h10, h11, routeHandler]
  by_cases h12 : strContains message "#kill_all_robots" = true
  · simp [h1, h2, h3, h4, h5, h6, h7, h8, h9, h10, h11, h12, routeHandler]
  by_cases h13 : strContains message "#help" = true
  · simp [h1, h2, h3, h4, h5, h6, h7, h8, h9, h10, h11, h12, h13, routeHandler]
  · simp [h1, h2, h3, h4, h5, h6, h7, h8, h9, h10, h11, h12, h13]

theorem firstMatchIdx_lt {m : String} : ∀ {ks : List String} {i : Nat},
    firstMatchIdx m ks = some i → i < ks.length := by
  intro ks
  induction ks with
  | nil => intro i h; simp [firstMatchIdx] at h
  | cons k ks ih =>
    intro i h
    simp only [firstMatchIdx] at h
    by_cases hc : strContains m k = true
    · simp [hc] at h; simp [List.length_cons]; omega
    · simp [hc] at h
      obtain ⟨j, hj, hji⟩ := h
      have := ih hj
      simp only [List.length_cons]
      omega

theorem firstMatchIdx_isSome_iff {m : String} : ∀ {ks : List String},
    (firstMatchIdx m ks).isSome = true ↔ ∃ k, k ∈ ks ∧ strContains m k = true := by
  intro ks
  induction ks with
  | nil => simp [firstMatchIdx]
  | cons k ks ih =>
    simp only [firstMatchIdx]
    by_cases hc : strContains m k = true
    · simp [hc]
    · simp [hc, ih]

theorem firstKeyword_lt {m : String} {i : Nat} (h : firstKeyword m = some i) :
    i < 13 := firstMatchIdx_lt h

theorem routeHandler_invoked (env : Env) (st : BotState) (packet : Packet)
    (message : String) (sender_id : Nat) {i : Nat} (hi : i < 13) :
    (routeHandler env st packet message sender_id i).invoked = some i := by
  interval_cases i <;> rfl

theorem dispatch_invoked (env : Env) (st : BotState) (packet : Packet)
    (message : String) (sender_id : Nat) :
    (dispatch env st packet message sender_id).invoked = firstKeyword message := by
  rw [dispatch_route]
  cases h : firstKeyword message with
  | none => rfl
  | some i => exact routeHandler_invoked env st packet message sender_id (firstKeyword_lt h)

theorem dispatch_cooldown (env : Env) (st : BotState) (packet : Packet)
    (message : String) (sender_id : Nat) :
    (dispatch env st packet message sender_id).state.cooldown = st.cooldown := by
  rw [dispatch_route]
  cases h : firstKeyword message with
  | none => rfl
  | some i =>
    have hi := firstKeyword_lt h
    interval_cases i <;>
      simp only [routeHandler, command_fw, command_dm, command_flipcoin,
        command_random, command_twin, sendCounted, command_tst_detail,
        command_whois, command_whois_body, command_bbs,
        command_kill_all_robots, pyCallHelp, command_help] <;>
      (repeat' split) <;> rfl

theorem dispatch_dutycycle (env : Env) (st : BotState) (packet : Packet)
    (message : String) (sender_id : Nat) :
    (dispatch env st packet message sender_id).state.dutycycle = st.dutycycle := by
  rw [dispatch_route]
  cases h : firstKeyword message with
  | none => rfl
  | some i =>
    have hi := firstKeyword_lt h
    interval_cases i <;>
      simp only [routeHandler, command_fw, command_dm, command_flipcoin,
        command_random, command_twin, sendCounted, command_tst_detail,
        command_whois, command_whois_body, command_bbs,
        command_kill_all_robots, pyCallHelp, command_help] <;>
      (repeat' split) <;> rfl

theorem dispatch_tc_mono (env : Env) (st : BotState) (packet : Packet)
    (message : String) (sender_id : Nat) :
    st.transmission_count ≤ (dispatch env st packet message sender_id).state.transmission_count := by
  rw [dispatch_route]
  cases h : firstKeyword message with
  | none => exact le_refl _
  | some i =>
    have hi := firstKeyword_lt h
    interval_cases i <;>
      simp only [routeHandler, command_fw, command_dm, command_flipcoin,
        command_random, command_twin, sendCounted, command_tst_detail,
        command_whois, command_whois_body, command_bbs,
        command_kill_all_robots, pyCallHelp, command_help] <;>
      (repeat' split) <;> simp <;> omega

theorem dutyCheck_tc (st : BotState) :
    (dutyCheck st).1.transmission_count = st.transmission_count := by
  unfold dutyCheck; (repeat' split) <;> rfl

theorem dutyCheck_dutycycle (st : BotState) :
    (dutyCheck st).1.dutycycle = st.dutycycle := by
  unfold dutyCheck; (repeat' split) <;> rfl

theorem dutyCheck_of_cooldown (st : BotState) (h : st.cooldown = true) :
    dutyCheck st = (st, []) := by
  unfold dutyCheck; (repeat' split) <;> simp_all

theorem dutyCheck_crossing (st : BotState) (h1 : 11 ≤ st.transmission_count)
    (h2 : st.dutycycle = true) (h3 : st.cooldown = false) :
    dutyCheck st = ({ st with cooldown := true },
      [{ text := cooldownNotice, wantAck := false, dest := none }]) := by
  unfold dutyCheck
  rw [if_pos ⟨h1, h2⟩, if_pos h3]

theorem dutyCheck_sends_le_one (st : BotState) : (dutyCheck st).2.length ≤ 1 := by
  unfold dutyCheck; (repeat' split) <;> simp

theorem dutyCheck_sends_ne (st : BotState) (h : (dutyCheck st).2 ≠ []) :
    (dutyCheck st).1.cooldown = true ∧ 11 ≤ st.transmission_count
      ∧ st.dutycycle = true ∧ st.cooldown = false := by
  revert h; unfold dutyCheck; (repeat' split) <;> intro h <;> simp_all

theorem dutyCheck_new_cooldown (st : BotState)
    (h : (dutyCheck st).1.cooldown = true) :
    st.cooldown = true ∨ (11 ≤ st.transmission_count ∧ st.dutycycle = true) := by
  revert h; unfold dutyCheck; (repeat' split) <;> intro h <;> simp_all

theorem listener_not_text (env : Env) (st : BotState) (packet : Packet)
    (hp : (packet.portnum == "TEXT_MESSAGE_APP") = false) :
    message_listener env st packet
      = { state := st, sends := [], err := none, invoked := none } := by
  simp [message_listener, hp]

theorem listener_not_eligible (env : Env) (st : BotState) (packet : Packet)
    (hp : (packet.portnum == "TEXT_MESSAGE_APP") = true)
    (he : isEligible st packet = false) :
    message_listener env st packet
      = { state := (dutyCheck st).1, sends := (dutyCheck st).2, err := none,
          invoked := none } := by
  simp [message_listener, hp, he]

theorem listener_eligible_err (env : Env) (st : BotState) (packet : Packet)
    (e : PyErr) (hp : (packet.portnum == "TEXT_MESSAGE_APP") = true)
    (he : isEligible st packet = true)
    (herr : (dispatch env st packet (strLower packet.text) packet.fromId).err
              = some e) :
    message_listener env st packet
      = { state := (dispatch env st packet (strLower packet.text) packet.fromId).state,
          sends := (dispatch env st packet (strLower packet.text) packet.fromId).sends,
          err := some e,
          invoked := (dispatch env st packet (strLower packet.text) packet.fromId).invoked } := by
  simp [message_listener, hp, he, herr]

theorem listener_eligible_ok (env : Env) (st : BotState) (packet : Packet)
    (hp : (packet.portnum == "TEXT_MESSAGE_APP") = true)
    (he : isEligible st packet = true)
    (herr : (dispatch env st packet (strLower packet.text) packet.fromId).err
              = none) :
    message_listener env st packet
      = { state := (dutyCheck (dispatch env st packet (strLower packet.text) packet.fromId).state).1,
          sends := (dispatch env st packet (strLower packet.text) packet.fromId).sends
                     ++ (dutyCheck (dispatch env st packet (strLower packet.text) packet.fromId).state).2,
          err := none,
          invoked := (dispatch env st packet (strLower packet.text) packet.fromId).invoked } := by
  simp [message_listener, hp, he, herr]

theorem monitorSends_not_text (env : Env) (st : BotState) (packet : Packet)
    (hp : (packet.portnum == "TEXT_MESSAGE_APP") = false) :
    monitorSends env st packet = [] := by
  simp [monitorSends, hp]

theorem monitorSends_not_eligible (env : Env) (st : BotState) (packet : Packet)
    (hp : (packet.portnum == "TEXT_MESSAGE_APP") = true)
    (he : isEligible st packet = false) :
    monitorSends env st packet = (dutyCheck st).2 := by
  simp [monitorSends, hp, he]

theorem monitorSends_err (env : Env) (st : BotState) (packet : Packet)
    (e : PyErr) (hp : (packet.portnum == "TEXT_MESSAGE_APP") = true)
    (he : isEligible st packet = true)
    (herr : (dispatch env st packet (strLower packet.text) packet.fromId).err
              = some e) :
    monitorSends env st packet = [] := by
  simp [monitorSends, hp, he, herr]

theorem monitorSends_ok (env : Env) (st : BotState) (packet : Packet)
    (hp : (packet.portnum == "TEXT_MESSAGE_APP") = true)
    (he : isEligible st packet = true)
    (herr : (dispatch env st packet (strLower packet.text) packet.fromId).err
              = none) :
    monitorSends env st packet
      = (dutyCheck (dispatch env st packet (strLower packet.text) packet.fromId).state).2 := by
  simp [monitorSends, hp, he, herr]

theorem listener_cooldown_mono (env : Env) (st : BotState) (packet : Packet)
    (h : st.cooldown = true) :
    (message_listener env st packet).state.cooldown = true := by
  cases hp : (packet.portnum == "TEXT_MESSAGE_APP") with
  | false => rw [listener_not_text env st packet hp]; exact h
  | true =>
    cases he : isEligible st packet with
    | false =>
      rw [listener_not_eligible env st packet hp he]
      rw [dutyCheck_of_cooldown st h]
      exact h
    | true =>
      cases herr : (dispatch env st packet (strLower packet.text) packet.fromId).err with
      | some e =>
        rw [listener_eligible_err env st packet e hp he herr]
        rw [dispatch_cooldown]; exact h
      | none =>
        rw [listener_eligible_ok env st packet hp he herr]
        have hc : (dispatch env st packet (strLower packet.text) packet.fromId).state.cooldown = true := by
          rw [dispatch_cooldown]; exact h
        rw [dutyCheck_of_cooldown _ hc]
        exact hc

theorem listener_tc_nonneg (env : Env) (st : BotState) (packet : Packet)
    (h : 0 ≤ st.transmission_count) :
    0 ≤ (message_listener env st packet).state.transmission_count := by
  cases hp : (packet.portnum == "TEXT_MESSAGE_APP") with
  | false => rw [listener_not_text env st packet hp]; exact h
  | true =>
    cases he : isEligible st packet with
    | false =>
      rw [listener_not_eligible env st packet hp he]
      rw [dutyCheck_tc]; exact h
    | true =>
      have hm := dispatch_tc_mono env st packet (strLower packet.text) packet.fromId
      cases herr : (dispatch env st packet (strLower packet.text) packet.fromId).err with
      | some e =>
        rw [listener_eligible_err env st packet e hp he herr]
        dsimp only
        omega
      | none =>
        rw [listener_eligible_ok env st packet hp he herr]
        rw [dutyCheck_tc]; omega

theorem monitorSends_of_cooldown (env : Env) (st : BotState) (packet : Packet)
    (h : st.cooldown = true) : monitorSends env st packet = [] := by
  cases hp : (packet.portnum == "TEXT_MESSAGE_APP") with
  | false => exact monitorSends_not_text env st packet hp
  | true =>
    cases he : isEligible st packet with
    | false =>
      rw [monitorSends_not_eligible env st packet hp he]
      rw [dutyCheck_of_cooldown st h]
    | true =>
      cases herr : (dispatch env st packet (strLower packet.text) packet.fromId).err with
      | some e => exact monitorSends_err env st packet e hp he herr
      | none =>
        rw [monitorSends_ok env st packet hp he herr]
        have hc : (dispatch env st packet (strLower packet.text) packet.fromId).state.cooldown = true := by
          rw [dispatch_cooldown]; exact h
        rw [dutyCheck_of_cooldown _ hc]

theorem monitorSends_le_one (env : Env) (st : BotState) (packet : Packet) :
    (monitorSends env st packet).length ≤ 1 := by
  cases hp : (packet.portnum == "TEXT_MESSAGE_APP") with
  | false => rw [monitorSends_not_text env st packet hp]; simp
  | true =>
    cases he : isEligible st packet with
    | false =>
      rw [monitorSends_not_eligible env st packet hp he]
      exact dutyCheck_sends_le_one st
    | true =>
      cases herr : (dispatch env st packet (strLower packet.text) packet.fromId).err with
      | some e => rw [monitorSends_err env st packet e hp he herr]; simp
      | none =>
        rw [monitorSends_ok env st packet hp he herr]
        exact dutyCheck_sends_le_one _

theorem monitorSends_sets_cooldown (env : Env) (st : BotState) (packet : Packet)
    (h : monitorSends env st packet ≠ []) :
    (message_listener env st packet).state.cooldown = true := by
  cases hp : (packet.portnum == "TEXT_MESSAGE_APP") with
  | false => exact absurd (monitorSends_not_text env st packet hp) h
  | true =>
    cases he : isEligible st packet with
    | false =>
      rw [monitorSends_not_eligible env st packet hp he] at h
      rw [listener_not_eligible env st packet hp he]
      exact (dutyCheck_sends_ne st h).1
    | true =>
      cases herr : (dispatch env st packet (strLower packet.text) packet.fromId).err with
      | some e => exact absurd (monitorSends_err env st packet e hp he herr) h
      | none =>
        rw [monitorSends_ok env st packet hp he herr] at h
        rw [listener_eligible_ok env st packet hp he herr]
        exact (dutyCheck_sends_ne _ h).1

theorem listener_cooldown_crossing (env : Env) (st : BotState) (packet : Packet)
    (h0 : st.cooldown = false)
    (h1 : (message_listener env st packet).state.cooldown = true) :
    11 ≤ (message_listener env st packet).state.transmission_count
      ∧ st.dutycycle = true := by
  cases hp : (packet.portnum == "TEXT_MESSAGE_APP") with
  | false =>
    rw [listener_not_text env st packet hp] at h1
    rw [h1] at h0; cases h0
  | true =>
    cases he : isEligible st packet with
    | false =>
      rw [listener_not_eligible env st packet hp he] at h1 ⊢
      rcases dutyCheck_new_cooldown st h1 with hcd | ⟨htc, hdy⟩
      · rw [hcd] at h0; cases h0
      · exact ⟨by rw [dutyCheck_tc]; exact htc, hdy⟩
    | true =>
      cases herr : (dispatch env st packet (strLower packet.text) packet.fromId).err with
      | some e =>
        rw [listener_eligible_err env st packet e hp he herr] at h1
        rw [dispatch_cooldown] at h1
        rw [h1] at h0; cases h0
      | none =>
        rw [listener_eligible_ok env st packet hp he herr] at h1 ⊢
        rcases dutyCheck_new_cooldown _ h1 with hcd | ⟨htc, hdy⟩
        · rw [dispatch_cooldown] at hcd; rw [hcd] at h0; cases h0
        · constructor
          · rw [dutyCheck_tc]; exact htc
          · rw [← dispatch_dutycycle env st packet (strLower packet.text) packet.fromId]
            exact hdy

theorem monitorNoticeCount_le_one (env : Env) (ps : List Packet) :
    ∀ st : BotState,
      (st.cooldown = true → monitorNoticeCount env st ps = 0)
      ∧ monitorNoticeCount env st ps ≤ 1 := by
  induction ps with
  | nil => intro st; exact ⟨fun _ => rfl, by simp [monitorNoticeCount]⟩
  | cons p ps ih =>
    intro st
    constructor
    · intro hcool
      have h1 := monitorSends_of_cooldown env st p hcool
      have h2 := listener_cooldown_mono env st p hcool
      simp [monitorNoticeCount, h1, (ih (message_listener env st p).state).1 h2]
    · by_cases hm : monitorSends env st p = []
      · simp only [monitorNoticeCount, hm, List.length_nil, Nat.zero_add]
        exact (ih (message_listener env st p).state).2
      · have hset := monitorSends_sets_cooldown env st p hm
        have hz := (ih (message_listener env st p).state).1 hset
        have hl := monitorSends_le_one env st p
        simp only [monitorNoticeCount, hz]
        omega

theorem isEligible_iff (st : BotState) (packet : Packet) :
    isEligible st packet = true ↔
      ((st.transmission_count < 16 ∨ st.dutycycle = false)
       ∧ (st.dm_mode = false ∨ toString packet.toId = st.mynode)
       ∧ (st.firewall = false
          ∨ ∃ node ∈ st.mynodes,
              strContains (toString packet.fromId) node = true)) := by
  simp [isEligible, Bool.or_eq_true, Bool.and_eq_true, decide_eq_true_iff,
    List.any_eq_true, beq_iff_eq, and_assoc]

theorem listener_invoked_eligible (env : Env) (st : BotState) (packet : Packet)
    (hp : (packet.portnum == "TEXT_MESSAGE_APP") = true)
    (he : isEligible st packet = true) :
    (message_listener env st packet).invoked
      = firstKeyword (strLower packet.text) := by
  cases herr : (dispatch env st packet (strLower packet.text) packet.fromId).err with
  | some e =>
    rw [listener_eligible_err env st packet e hp he herr]
    dsimp only
    rw [dispatch_invoked]
  | none =>
    rw [listener_eligible_ok env st packet hp he herr]
    dsimp only
    rw [dispatch_invoked]

/-- C1: kill-confirmation handshake.  The IDLE step behaves as claimed, but
a second receipt while ARMED does nothing: the handler only increments the
counter inside the `kill_all_robots == 0` branch, so the counter never
exceeds 1 and the `> 1` shutdown branch is unreachable.  This theorem
evaluates the code at the failing input: the second receipt sends nothing
and leaves the counter at 1, and only the 120-unit decay clears it. -/
theorem C1_kill_confirmation_armed_step_dead :
    ((message_listener env0 st0 (mkTextPkt "#kill_all_robots")).sends
       = [{ text := "Confirm", wantAck := false, dest := some 7 }]
     ∧ (message_listener env0 st0 (mkTextPkt "#kill_all_robots")).state.kill_all_robots = 1)
    ∧ ((message_listener env0
          (message_listener env0 st0 (mkTextPkt "#kill_all_robots")).state
          pktKill8).sends = []
       ∧ (message_listener env0
            (message_listener env0 st0 (mkTextPkt "#kill_all_robots")).state
            pktKill8).state.kill_all_robots = 1)
    ∧ (command_kill_all_robots stArmed "#kill_all_robots" 9
        = ({ stArmed with transmission_count := stArmed.transmission_count + 1 }, []))
    ∧ (decayKillAllRobots stArmed).kill_all_robots = 0 := by decide

/-- C2 counterexample: a received text message satisfying all three gate
conditions but containing no recognized keyword is not dispatched to any
command handler, refuting the claimed if-and-only-if. -/
theorem C2_eligible_without_keyword_not_dispatched :
    (st0.transmission_count < 16 ∨ st0.dutycycle = false)
    ∧ (st0.dm_mode = false ∨ toString (mkTextPkt "hello").toId = st0.mynode)
    ∧ (st0.firewall = false
       ∨ ∃ node ∈ st0.mynodes,
           strContains (toString (mkTextPkt "hello").fromId) node = true)
    ∧ (mkTextPkt "hello").portnum = "TEXT_MESSAGE_APP"
    ∧ (message_listener env0 st0 (mkTextPkt "hello")).invoked = none
    ∧ (message_listener env0 st0 (mkTextPkt "hello")).sends = [] := by decide

/-- C2 amended: a received text message is dispatched to a command handler
iff the three access-gate conditions hold and the lowercased text contains
at least one recognized keyword. -/
theorem C2_amended_gate_iff (env : Env) (st : BotState) (packet : Packet)
    (hp : packet.portnum = "TEXT_MESSAGE_APP") :
    (message_listener env st packet).invoked.isSome = true ↔
      ((st.transmission_count < 16 ∨ st.dutycycle = false)
       ∧ (st.dm_mode = false ∨ toString packet.toId = st.mynode)
       ∧ (st.firewall = false
          ∨ ∃ node ∈ st.mynodes,
              strContains (toString packet.fromId) node = true)
       ∧ ∃ k ∈ keywords, strContains (strLower packet.text) k = true) := by
  have hp' : (packet.portnum == "TEXT_MESSAGE_APP") = true := by
    simp [hp]
  cases he : isEligible st packet with
  | false =>
    rw [listener_not_eligible env st packet hp' he]
    constructor
    · intro h; cases h
    · intro ⟨h1, h2, h3, _⟩
      have : isEligible st packet = true := (isEligible_iff st packet).mpr ⟨h1, h2, h3⟩
      rw [this] at he; cases he
  | true =>
    rw [listener_invoked_eligible env st packet hp' he]
    rw [show firstKeyword (strLower packet.text)
          = firstMatchIdx (strLower packet.text) keywords from rfl]
    rw [firstMatchIdx_isSome_iff]
    obtain ⟨h1, h2, h3⟩ := (isEligible_iff st packet).mp he
    constructor
    · intro hk; exact ⟨h1, h2, h3, hk⟩
    · intro ⟨_, _, _, hk⟩; exact hk

theorem C2_amended_gate_iff_witness :
    (message_listener env0 st0 (mkTextPkt "#flipcoin")).invoked.isSome = true :=
  (C2_amended_gate_iff env0 st0 (mkTextPkt "#flipcoin") rfl).mpr (by decide)

/-- C3: a bare "#twin" and a bare "#bbs" make the handler evaluate
`message_parts[1]` on a one-element list; the IndexError propagates out of
`message_listener` instead of being recovered locally.  This theorem
evaluates the code at the failing inputs. -/
theorem C3_malformed_command_raises :
    (message_listener env0 st0 (mkTextPkt "#twin")).err = some PyErr.indexError
    ∧ (message_listener env0 st0 (mkTextPkt "#bbs")).err = some PyErr.indexError := by
  decide

/-- C4 counterexample: the #twin handler sends exactly one reply but leaves
`transmission_count` unchanged, refuting the claimed increment of 1. -/
theorem C4_twin_sends_without_increment :
    (command_twin env0 stTw "#twin hello" 7).sends.length = 1
    ∧ ¬ (command_twin env0 stTw "#twin hello" 7).state.transmission_count
        = stTw.transmission_count + 1 := by decide

/-- C4 amended: every reply-bearing handler increments `transmission_count`
by exactly 1 per invocation, except that the kill-all-robots handler
increments twice on its completing step, the duty-cycle notice increments
zero, and the #twin handler (which sends one reply) also increments
zero. -/
theorem C4_amended_rate_accounting :
    (∀ env st sender_id,
       (command_flipcoin env st sender_id).1.transmission_count
           = st.transmission_count + 1
       ∧ (command_flipcoin env st sender_id).2.length = 1)
    ∧ (∀ env st sender_id,
       (command_random env st sender_id).1.transmission_count
           = st.transmission_count + 1
       ∧ (command_random env st sender_id).2.length = 1)
    ∧ (∀ st packet sender_id,
       (command_tst_detail st packet sender_id).1.transmission_count
           = st.transmission_count + 1
       ∧ (command_tst_detail st packet sender_id).2.length = 1)
    ∧ (∀ st text sender_id,
       (sendCounted st text sender_id).1.transmission_count
           = st.transmission_count + 1
       ∧ (sendCounted st text sender_id).2.length = 1)
    ∧ (∀ st sender_id,
       (command_help st sender_id).1.transmission_count
           = st.transmission_count + 1
       ∧ (command_help st sender_id).2.length = 1)
    ∧ (∀ env st packet sender_id,
       (command_bbs env st packet sender_id).state.transmission_count
           = st.transmission_count + 1)
    ∧ (∀ env st message sender_id a1,
       (pySplitOn message ' ').get? 1 = some a1 →
       (command_twin env st message sender_id).state.transmission_count
           = st.transmission_count
       ∧ (command_twin env st message sender_id).sends.length = 1)
    ∧ (∀ st message sender_id, st.kill_all_robots = 0 →
       (command_kill_all_robots st message sender_id).1.transmission_count
           = st.transmission_count + 1
       ∧ (command_kill_all_robots st message sender_id).2.length = 1)
    ∧ (∀ st message sender_id, 1 < st.kill_all_robots →
       (command_kill_all_robots st message sender_id).1.transmission_count
           = st.transmission_count + 2
       ∧ (command_kill_all_robots st message sender_id).2.length = 1)
    ∧ (∀ st, (dutyCheck st).1.transmission_count = st.transmission_count) := by
  refine ⟨?_, ?_, ?_, ?_, ?_, ?_, ?_, ?_, ?_, dutyCheck_tc⟩
  · intro env st sender_id; exact ⟨rfl, rfl⟩
  · intro env st sender_id; exact ⟨rfl, rfl⟩
  · intro st packet sender_id; exact ⟨rfl, rfl⟩
  · intro st text sender_id; exact ⟨rfl, rfl⟩
  · intro st sender_id; exact ⟨rfl, rfl⟩
  · intro env st packet sender_id
    simp only [command_bbs]
    (repeat' split) <;> rfl
  · intro env st message sender_id a1 h
    simp only [command_twin, h]
    split <;> exact ⟨rfl, rfl⟩
  · intro st message sender_id h
    have h0 : ({ st with transmission_count := st.transmission_count + 1 }).kill_all_robots == 0 := by
      simp [h]
    simp only [command_kill_all_robots]
    simp only [h0, if_true]
    have h1 : ¬ (0 + 1 > 1) := by omega
    simp [h, h1]
  · intro st message sender_id h
    have h0 : (({ st with transmission_count := st.transmission_count + 1 }).kill_all_robots == 0) = false := by
      simp; omega
    simp only [command_kill_all_robots]
    simp only [h0, if_false, Bool.false_eq_true, ite_false]
    have h1 : ({ st with transmission_count := st.transmission_count + 1 }).kill_all_robots > 1 := h
    simp only [h1, if_true, ite_true]
    constructor
    · dsimp only; omega
    · simp

theorem C4_amended_rate_accounting_witness :
    ((command_twin env0 stTw "#twin d abc" 7).state.transmission_count
        = stTw.transmission_count
      ∧ (command_twin env0 stTw "#twin d abc" 7).sends.length = 1)
    ∧ ((command_kill_all_robots st0 "#kill_all_robots" 9).1.transmission_count
        = st0.transmission_count + 1
      ∧ (command_kill_all_robots st0 "#kill_all_robots" 9).2.length = 1)
    ∧ ((command_kill_all_robots stKill2 "#kill_all_robots" 9).1.transmission_count
        = stKill2.transmission_count + 2
      ∧ (command_kill_all_robots stKill2 "#kill_all_robots" 9).2.length = 1) :=
  ⟨C4_amended_rate_accounting.2.2.2.2.2.2.1 env0 stTw "#twin d abc" 7 "d" (by decide),
   C4_amended_rate_accounting.2.2.2.2.2.2.2.1 st0 "#kill_all_robots" 9 (by decide),
   C4_amended_rate_accounting.2.2.2.2.2.2.2.2.1 stKill2 "#kill_all_robots" 9 (by decide)⟩

/-- C5 counterexample: an eligible "#help" text message arriving at the
crossed threshold makes the handler call raise, which skips the duty-cycle
check entirely: no cooldown notice is broadcast and the cooldown flag stays
clear, refuting the claim that the check runs for every received text
message and fires whenever the threshold condition holds. -/
theorem C5_check_skipped_on_handler_error :
    11 ≤ stCross.transmission_count ∧ stCross.dutycycle = true
    ∧ stCross.cooldown = false
    ∧ (mkTextPkt "#help").portnum = "TEXT_MESSAGE_APP"
    ∧ isEligible stCross (mkTextPkt "#help") = true
    ∧ (message_listener env0 stCross (mkTextPkt "#help")).sends = []
    ∧ (message_listener env0 stCross (mkTextPkt "#help")).state.cooldown = false := by
  decide

/-- C5 amended: the duty-cycle check runs after dispatch for every received
text message whose dispatch raises no exception, regardless of
eligibility; when at check time the transmission count is at least 11 with
the duty cycle enabled and the cooldown flag clear it broadcasts exactly
one cooldown notice and sets the flag; while the flag is set it transmits
nothing; hence over any run of received messages (between two timed
cooldown resets) at most one notice is broadcast. -/
theorem C5_amended_duty_cycle_monitor :
    (∀ env st packet, (packet.portnum == "TEXT_MESSAGE_APP") = true →
       isEligible st packet = false →
       message_listener env st packet
         = { state := (dutyCheck st).1, sends := (dutyCheck st).2,
             err := none, invoked := none })
    ∧ (∀ env st packet, (packet.portnum == "TEXT_MESSAGE_APP") = true →
       isEligible st packet = true →
       (dispatch env st packet (strLower packet.text) packet.fromId).err = none →
       message_listener env st packet
         = { state := (dutyCheck (dispatch env st packet (strLower packet.text) packet.fromId).state).1,
             sends := (dispatch env st packet (strLower packet.text) packet.fromId).sends
               ++ (dutyCheck (dispatch env st packet (strLower packet.text) packet.fromId).state).2,
             err := none,
             invoked := (dispatch env st packet (strLower packet.text) packet.fromId).invoked })
    ∧ (∀ st, 11 ≤ st.transmission_count → st.dutycycle = true →
         st.cooldown = false →
         dutyCheck st = ({ st with cooldown := true },
           [{ text := cooldownNotice, wantAck := false, dest := none }]))
    ∧ (∀ st, st.cooldown = true → dutyCheck st = (st, []))
    ∧ (∀ env st ps, st.cooldown = true → monitorNoticeCount env st ps = 0)
    ∧ (∀ env st ps, monitorNoticeCount env st ps ≤ 1) := by
  refine ⟨listener_not_eligible, listener_eligible_ok, dutyCheck_crossing,
    dutyCheck_of_cooldown, ?_, ?_⟩
  · intro env st ps h
    exact (monitorNoticeCount_le_one env ps st).1 h
  · intro env st ps
    exact (monitorNoticeCount_le_one env ps st).2

theorem C5_amended_duty_cycle_monitor_witness :
    dutyCheck stCross
      = ({ stCross with cooldown := true },
         [{ text := cooldownNotice, wantAck := false, dest := none }]) :=
  C5_amended_duty_cycle_monitor.2.2.1 stCross (by decide) (by decide) (by decide)

/-- C6: the dispatcher equals first-match routing over the ordered keyword
table with substring containment: the first contained keyword's handler is
invoked (at most one per message), and a message containing none of the
keywords leaves the state unchanged and sends nothing. -/
theorem C6_dispatch_first_match (env : Env) (st : BotState) (packet : Packet)
    (message : String) (sender_id : Nat) :
    dispatch env st packet message sender_id =
      match firstKeyword message with
      | none => { state := st, sends := [], err := none, invoked := none }
      | some i => routeHandler env st packet message sender_id i :=
  dispatch_route env st packet message sender_id

/-- C7: the transmission count starts at 0, every handler mutation is an
increment, the 180-unit decay clamps at 0, and the other decay actions do
not touch it; hence it never becomes negative. -/
theorem C7_transmission_count_never_negative :
    (∀ location tide_location mynode mynodes db_filename dm fw duty,
       (initBotState location tide_location mynode mynodes db_filename
          dm fw duty).transmission_count = 0)
    ∧ (∀ env st packet message sender_id,
       st.transmission_count
         ≤ (dispatch env st packet message sender_id).state.transmission_count)
    ∧ (∀ env st packet, 0 ≤ st.transmission_count →
       0 ≤ (message_listener env st packet).state.transmission_count)
    ∧ (∀ st : BotState, 0 ≤ (decayTransmission st).transmission_count)
    ∧ (∀ st : BotState,
       (decayCooldown st).transmission_count = st.transmission_count
       ∧ (decayKillAllRobots st).transmission_count = st.transmission_count) := by
  refine ⟨?_, dispatch_tc_mono, listener_tc_nonneg, ?_, ?_⟩
  · intro location tide_location mynode mynodes db_filename dm fw duty; rfl
  · intro st; exact le_max_left 0 (st.transmission_count - 1)
  · intro st; exact ⟨rfl, rfl⟩

theorem C7_transmission_count_never_negative_witness :
    0 ≤ (message_listener env0 st0 (mkTextPkt "#random")).state.transmission_count :=
  C7_transmission_count_never_negative.2.2.1 env0 st0 (mkTextPkt "#random") (by decide)

/-- C8: the cooldown flag is never touched by a command handler; in a
listener step it can only turn on, and only when the post-dispatch
transmission count has reached 11 with the duty cycle enabled; it is
cleared only by the 240-unit decay action, and the other decay actions
leave it alone. -/
theorem C8_cooldown_flag_transitions :
    (∀ env st packet message sender_id,
       (dispatch env st packet message sender_id).state.cooldown = st.cooldown)
    ∧ (∀ env st packet, st.cooldown = true →
       (message_listener env st packet).state.cooldown = true)
    ∧ (∀ env st packet, st.cooldown = false →
       (message_listener env st packet).state.cooldown = true →
       11 ≤ (message_listener env st packet).state.transmission_count
         ∧ st.dutycycle = true)
    ∧ (∀ st : BotState, (decayCooldown st).cooldown = false
       ∧ (decayTransmission st).cooldown = st.cooldown
       ∧ (decayKillAllRobots st).cooldown = st.cooldown) := by
  refine ⟨dispatch_cooldown, listener_cooldown_mono, listener_cooldown_crossing, ?_⟩
  intro st; exact ⟨rfl, rfl, rfl⟩

theorem C8_cooldown_flag_transitions_witness :
    (message_listener env0 stCool (mkTextPkt "#test")).state.cooldown = true :=
  C8_cooldown_flag_transitions.2.1 env0 stCool (mkTextPkt "#test") rfl

/-- C9: the #fw and #dm commands set their flag to false exactly when the
first argument lowercases to "off", and to true for any other argument or
no argument; in particular "#fw off" then "#fw" yields the flag sequence
false, true, and likewise for #dm. -/
theorem C9_fw_dm_toggle_law :
    (∀ st message a1, (pySplitOn message ' ').get? 1 = some a1 →
       ((strLower a1 = "off" →
           command_fw st message = { st with firewall := false })
        ∧ (¬ strLower a1 = "off" →
           command_fw st message = { st with firewall := true })))
    ∧ (∀ st message, (pySplitOn message ' ').get? 1 = none →
       command_fw st message = { st with firewall := true })
    ∧ (∀ st message a1, (pySplitOn message ' ').get? 1 = some a1 →
       ((strLower a1 = "off" →
           command_dm st message = { st with dm_mode := false })
        ∧ (¬ strLower a1 = "off" →
           command_dm st message = { st with dm_mode := true })))
    ∧ (∀ st message, (pySplitOn message ' ').get? 1 = none →
       command_dm st message = { st with dm_mode := true })
    ∧ (∀ st : BotState, (command_fw st "#fw off").firewall = false
       ∧ (command_fw (command_fw st "#fw off") "#fw").firewall = true)
    ∧ (∀ st : BotState, (command_dm st "#dm off").dm_mode = false
       ∧ (command_dm (command_dm st "#dm off") "#dm").dm_mode = true) := by
  refine ⟨?_, ?_, ?_, ?_, ?_, ?_⟩
  · intro st message a1 h
    constructor <;> intro hoff <;> simp only [command_fw] <;> rw [h] <;>
      simp [hoff]
  · intro st message h
    simp only [command_fw]; rw [h]
  · intro st message a1 h
    constructor <;> intro hoff <;> simp only [command_dm] <;> rw [h] <;>
      simp [hoff]
  · intro st message h
    simp only [command_dm]; rw [h]
  · intro st; exact ⟨rfl, rfl⟩
  · intro st; exact ⟨rfl, rfl⟩

theorem C9_fw_dm_toggle_law_witness :
    command_fw st0 "#fw off" = { st0 with firewall := false } :=
  (C9_fw_dm_toggle_law.1 st0 "#fw off" "off" rfl).1 rfl

/-- C10: the dispatcher passes the raw packet where the #whois handler
expects the message text, so the handler's split step raises
AttributeError; and it passes three arguments to the two-parameter #help
handler, raising TypeError at the call; in both cases the eligible message
produces an escaped exception, no reply, and no state change. -/
theorem C10_whois_help_call_mismatch (env : Env) (st : BotState)
    (packet : Packet)
    (hp : (packet.portnum == "TEXT_MESSAGE_APP") = true)
    (he : isEligible st packet = true) :
    (firstKeyword (strLower packet.text) = some 9 →
       message_listener env st packet
         = { state := st, sends := [], err := some PyErr.attributeError,
             invoked := some 9 })
    ∧ (firstKeyword (strLower packet.text) = some 12 →
       message_listener env st packet
         = { state := st, sends := [], err := some PyErr.typeError,
             invoked := some 12 }) := by
  constructor <;> intro hk
  · have hd : dispatch env st packet (strLower packet.text) packet.fromId
        = { state := st, sends := [], err := some PyErr.attributeError,
            invoked := some 9 } := by
      rw [dispatch_route, hk]; rfl
    have herr : (dispatch env st packet (strLower packet.text) packet.fromId).err
        = some PyErr.attributeError := by rw [hd]
    rw [listener_eligible_err env st packet PyErr.attributeError hp he herr, hd]
  · have hd : dispatch env st packet (strLower packet.text) packet.fromId
        = { state := st, sends := [], err := some PyErr.typeError,
            invoked := some 12 } := by
      rw [dispatch_route, hk]; rfl
    have herr : (dispatch env st packet (strLower packet.text) packet.fromId).err
        = some PyErr.typeError := by rw [hd]
    rw [listener_eligible_err env st packet PyErr.typeError hp he herr, hd]

theorem C10_whois_help_call_mismatch_witness :
    message_listener env0 st0 (mkTextPkt "#whois #ab")
      = { state := st0, sends := [], err := some PyErr.attributeError,
          invoked := some 9 }
    ∧ message_listener env0 st0 (mkTextPkt "#help")
      = { state := st0, sends := [], err := some PyErr.typeError,
          invoked := some 12 } :=
  ⟨(C10_whois_help_call_mismatch env0 st0 (mkTextPkt "#whois #ab") (by decide)
      (by decide)).1 (by decide),
   (C10_whois_help_call_mismatch env0 st0 (mkTextPkt "#help") (by decide)
      (by decide)).2 (by decide)⟩


end Meshbot
